import Mathlib

/-!
Verification of the entry-point resolution, requirements parsing, token
authentication and return-type checking logic of the agno-modal-deploy
repository (`agno_modal_deploy.py` and `agno_modal_deploy_agui.py`), as a
shallow embedding in Lean 4.

Python string primitives used by the scripts (`str.lower`, `str.startswith`,
the `in` substring test, `str.strip`, `str.split` and slicing) are modelled
structurally on the character list of a `String`, so that every definition
evaluates inside the kernel.
-/

namespace AgnoDeploy

/-- Decidable equality for `Except`, needed to evaluate concrete resolver
results with `decide`. -/
instance exceptDecEq {ε α : Type} [DecidableEq ε] [DecidableEq α] : DecidableEq (Except ε α) :=
fun x y =>
  match x, y with
  | Except.ok a, Except.ok b =>
    if h : a = b then isTrue (by rw [h]) else isFalse (by intro hc; cases hc; exact h rfl)
  | Except.error a, Except.error b =>
    if h : a = b then isTrue (by rw [h]) else isFalse (by intro hc; cases hc; exact h rfl)
  | Except.ok _, Except.error _ => isFalse (by intro hc; cases hc)
  | Except.error _, Except.ok _ => isFalse (by intro hc; cases hc)

/-- A single-quote character as a string (used when rendering Python error
messages that quote candidate names). -/
def sglQuote : String := String.singleton (Char.ofNat 39)

/-- Model of Python `p.startswith(q)`. -/
def strStartsWith (s p : String) : Bool := p.data.isPrefixOf s.data

/-- Model of Python `s.lower()`. -/
def strToLower (s : String) : String := String.mk (s.data.map Char.toLower)

/-- Helper for the substring test: does `needle` occur inside the list? -/
def listContainsSub (needle : List Char) : List Char → Bool
  | [] => needle.isEmpty
  | c :: rest => needle.isPrefixOf (c :: rest) || listContainsSub needle rest

/-- Model of Python `needle in hay` for strings. -/
def strContains (hay needle : String) : Bool := listContainsSub needle.data hay.data

/-- Model of Python `s.strip()`: remove leading and trailing whitespace. -/
def pyStrip (s : String) : String :=
  String.mk (((s.data.dropWhile Char.isWhitespace).reverse.dropWhile Char.isWhitespace).reverse)

/-- Model of Python slicing `s[n:]`. -/
def strDropChars (s : String) (n : Nat) : String := String.mk (s.data.drop n)

/-- Abstraction of a Python value exported by the agent module, as inspected
by `detect_agent_pattern` / `detect_agui_pattern`:
* `callableFn owningModule isClass` - a value for which `callable(obj)` holds;
  `owningModule` is `obj.__module__` when the attribute exists (`none` when
  `hasattr(obj, "__module__")` fails) and `isClass` is `inspect.isclass(obj)`;
* `instFastAPIApp / instAGUIApp / instAgent / instTeam createdIn` - a
  (non-callable) direct instance of the corresponding framework class;
  `createdIn` records where the instance was constructed, an attribute the
  source never inspects;
* `otherValue` - any other export (strings, modules, configuration, ...). -/
inductive PyValue where
  | callableFn (owningModule : Option String) (isClass : Bool)
  | instFastAPIApp (createdIn : Option String)
  | instAGUIApp (createdIn : Option String)
  | instAgent (createdIn : Option String)
  | instTeam (createdIn : Option String)
  | otherValue
deriving DecidableEq

/-- A loaded Python module as the detectors see it: its `__name__`, its
attribute dictionary (in enumeration order, as `dir` reports it), and its
optional `__all__` export list. -/
structure PyModule where
  name : String
  exports : List (String × PyValue)
  dunderAll : Option (List String)
deriving DecidableEq

/-- `getattr(agent_module, n)`: `none` models an `AttributeError`, which the
detection loop catches and skips. -/
def getAttr (m : PyModule) (n : String) : Option PyValue :=
  (m.exports.find? (fun p => p.fst == n)).map Prod.snd

/-- The candidate name set of `detect_agent_pattern` / `detect_agui_pattern`:
`__all__` verbatim when declared, otherwise every exported name that does not
start with an underscore. -/
def availableNames (m : PyModule) : List String :=
  match m.dunderAll with
  | some names => names
  | none => (m.exports.map Prod.fst).filter (fun n => !strStartsWith n ("_"))

/-- The four pattern categories of `agno_modal_deploy.py`, in priority order. -/
inductive PatternCat where
  | fastapiFunction
  | agentFunction
  | fastapiVariable
  | agentVariable
deriving DecidableEq, Fintype

/-- The FastAPIApp-function name test of `detect_agent_pattern` (line 255):
`name == "create_fastapi_app" or ("fastapi" in func_name_lower and "app" in
func_name_lower and name.startswith("create"))`. -/
def fastapiFunctionTest (name : String) : Bool :=
  name == ("create_fastapi_app") ||
    (strContains (strToLower name) ("fastapi") && strContains (strToLower name) ("app") &&
      strStartsWith name ("create"))

/-- The Agent-function name test of `detect_agent_pattern` (line 260):
`("agent" in func_name_lower and name.startswith("create")) or name ==
"create_agent"`. -/
def agentFunctionTest (name : String) : Bool :=
  (strContains (strToLower name) ("agent") && strStartsWith name ("create")) ||
    name == ("create_agent")

/-- Name classification of a module-owned callable in `detect_agent_pattern`:
the FastAPIApp test is tried first, then the Agent test (an `elif`). -/
def classifyCallableName (name : String) : Option PatternCat :=
  if fastapiFunctionTest name then some PatternCat.fastapiFunction
  else if agentFunctionTest name then some PatternCat.agentFunction
  else none

/-- Classification of one export in `detect_agent_pattern` (lines 249-269):
callables that are not classes are classified by name, but only when their
`__module__` equals the target module's `__name__`; otherwise the `elif`
chain tests direct `FastAPIApp` / `Agent` instances. -/
def classifyExport (moduleName name : String) (v : PyValue) : Option PatternCat :=
  match v with
  | PyValue.callableFn owningModule isClass =>
    if isClass then none
    else
      match owningModule with
      | some owner => if owner == moduleName then classifyCallableName name else none
      | none => none
  | PyValue.instFastAPIApp _ => some PatternCat.fastapiVariable
  | PyValue.instAgent _ => some PatternCat.agentVariable
  | _ => none

/-- The names collected into the candidate list of a category by
`detect_agent_pattern`'s loop, in enumeration order. -/
def candidates (m : PyModule) (c : PatternCat) : List String :=
  (availableNames m).filter (fun n =>
    match getAttr m n with
    | some v => classifyExport m.name n v == some c
    | none => false)

/-- Failure outcome of the detectors: `ambiguous` models the `ValueError`
raised when a winning category holds several candidates (carrying the
category text of the message and all conflicting names), `noPattern` the
final `ImportError`. -/
inductive DetectError where
  | ambiguous (categoryLabel : String) (names : List String)
  | noPattern
deriving DecidableEq

/-- One step of the priority cascade shared by both detectors: an empty
candidate list falls through to the lower-priority categories, a singleton
is returned, two or more candidates raise the ambiguity error. -/
def selectCategory (patternType : String) (categoryLabel : String) (names : List String)
    (lower : Except DetectError (String × String)) : Except DetectError (String × String) :=
  match names with
  | [] => lower
  | [n] => Except.ok (patternType, n)
  | ns => Except.error (DetectError.ambiguous categoryLabel ns)

/-- `detect_agent_pattern` of `agno_modal_deploy.py` (lines 212-327), returning
the `(pattern_type, pattern_name)` pair of the selected candidate. -/
def detect_agent_pattern (m : PyModule) : Except DetectError (String × String) :=
  selectCategory ("fastapi_function") ("FastAPIApp functions")
    (candidates m PatternCat.fastapiFunction)
    (selectCategory ("agent_function") ("Agent functions")
      (candidates m PatternCat.agentFunction)
      (selectCategory ("fastapi_variable") ("FastAPIApp variables")
        (candidates m PatternCat.fastapiVariable)
        (selectCategory ("agent_variable") ("Agent variables")
          (candidates m PatternCat.agentVariable)
          (Except.error DetectError.noPattern))))

/-- Priority rank of a category in `detect_agent_pattern` (0 is highest). -/
def catRank : PatternCat → Nat
  | PatternCat.fastapiFunction => 0
  | PatternCat.agentFunction => 1
  | PatternCat.fastapiVariable => 2
  | PatternCat.agentVariable => 3

/-- The `pattern_type` string returned for each category. -/
def patternTypeOf : PatternCat → String
  | PatternCat.fastapiFunction => ("fastapi_function")
  | PatternCat.agentFunction => ("agent_function")
  | PatternCat.fastapiVariable => ("fastapi_variable")
  | PatternCat.agentVariable => ("agent_variable")

/-- The category text used in the ambiguity error message of each category. -/
def categoryLabelOf : PatternCat → String
  | PatternCat.fastapiFunction => ("FastAPIApp functions")
  | PatternCat.agentFunction => ("Agent functions")
  | PatternCat.fastapiVariable => ("FastAPIApp variables")
  | PatternCat.agentVariable => ("Agent variables")

/-- The six pattern categories of `agno_modal_deploy_agui.py`, in priority
order. -/
inductive AguiCat where
  | aguiFunction
  | agentFunction
  | teamFunction
  | aguiVariable
  | agentVariable
  | teamVariable
deriving DecidableEq, Fintype

/-- The AGUIApp-function name test of `detect_agui_pattern` (line 220):
`name == "create_agui_app" or ("agui" in func_name_lower and "app" in
func_name_lower and name.startswith("create"))`. -/
def aguiFunctionTest (name : String) : Bool :=
  name == ("create_agui_app") ||
    (strContains (strToLower name) ("agui") && strContains (strToLower name) ("app") &&
      strStartsWith name ("create"))

/-- The Team-function name test of `detect_agui_pattern` (line 230):
`("team" in func_name_lower and name.startswith("create")) or name ==
"create_team"`. -/
def teamFunctionTest (name : String) : Bool :=
  (strContains (strToLower name) ("team") && strStartsWith name ("create")) ||
    name == ("create_team")

/-- Name classification of a module-owned callable in `detect_agui_pattern`:
AGUIApp test first, then Agent, then Team (an `elif` chain). The Agent test
is textually identical to the one in `detect_agent_pattern`. -/
def classifyAguiCallableName (name : String) : Option AguiCat :=
  if aguiFunctionTest name then some AguiCat.aguiFunction
  else if agentFunctionTest name then some AguiCat.agentFunction
  else if teamFunctionTest name then some AguiCat.teamFunction
  else none

/-- Classification of one export in `detect_agui_pattern` (lines 214-241). -/
def classifyAguiExport (moduleName name : String) (v : PyValue) : Option AguiCat :=
  match v with
  | PyValue.callableFn owningModule isClass =>
    if isClass then none
    else
      match owningModule with
      | some owner => if owner == moduleName then classifyAguiCallableName name else none
      | none => none
  | PyValue.instAGUIApp _ => some AguiCat.aguiVariable
  | PyValue.instAgent _ => some AguiCat.agentVariable
  | PyValue.instTeam _ => some AguiCat.teamVariable
  | _ => none

/-- Candidate names per category collected by `detect_agui_pattern`'s loop. -/
def aguiCandidates (m : PyModule) (c : AguiCat) : List String :=
  (availableNames m).filter (fun n =>
    match getAttr m n with
    | some v => classifyAguiExport m.name n v == some c
    | none => false)

/-- `detect_agui_pattern` of `agno_modal_deploy_agui.py` (lines 163-321). -/
def detect_agui_pattern (m : PyModule) : Except DetectError (String × String) :=
  selectCategory ("agui_function") ("AGUIApp functions")
    (aguiCandidates m AguiCat.aguiFunction)
    (selectCategory ("agent_function") ("Agent functions")
      (aguiCandidates m AguiCat.agentFunction)
      (selectCategory ("team_function") ("Team functions")
        (aguiCandidates m AguiCat.teamFunction)
        (selectCategory ("agui_variable") ("AGUIApp variables")
          (aguiCandidates m AguiCat.aguiVariable)
          (selectCategory ("agent_variable") ("Agent variables")
            (aguiCandidates m AguiCat.agentVariable)
            (selectCategory ("team_variable") ("Team variables")
              (aguiCandidates m AguiCat.teamVariable)
              (Except.error DetectError.noPattern))))))

/-- Priority rank of a category in `detect_agui_pattern` (0 is highest). -/
def aguiCatRank : AguiCat → Nat
  | AguiCat.aguiFunction => 0
  | AguiCat.agentFunction => 1
  | AguiCat.teamFunction => 2
  | AguiCat.aguiVariable => 3
  | AguiCat.agentVariable => 4
  | AguiCat.teamVariable => 5

/-- The `pattern_type` string returned for each AG-UI category. -/
def aguiPatternTypeOf : AguiCat → String
  | AguiCat.aguiFunction => ("agui_function")
  | AguiCat.agentFunction => ("agent_function")
  | AguiCat.teamFunction => ("team_function")
  | AguiCat.aguiVariable => ("agui_variable")
  | AguiCat.agentVariable => ("agent_variable")
  | AguiCat.teamVariable => ("team_variable")

/-- The category text used in the AG-UI ambiguity error message. -/
def aguiCategoryLabelOf : AguiCat → String
  | AguiCat.aguiFunction => ("AGUIApp functions")
  | AguiCat.agentFunction => ("Agent functions")
  | AguiCat.teamFunction => ("Team functions")
  | AguiCat.aguiVariable => ("AGUIApp variables")
  | AguiCat.agentVariable => ("Agent variables")
  | AguiCat.teamVariable => ("Team variables")

/-- Python's `repr` of a list of strings, joined with a comma and a space and
each element wrapped in single quotes (the `{names}` part of the ambiguity
message). -/
def quoteJoin : List String → String
  | [] => ("")
  | [n] => sglQuote ++ n ++ sglQuote
  | n :: ns => sglQuote ++ n ++ sglQuote ++ (", ") ++ quoteJoin ns

/-- The `ValueError` message both detectors raise for an ambiguous category:
`f"... Multiple {label} found: {names}. Please export only one using
__all__ = ['{names[0]}']"`. -/
def ambiguousMessage (categoryLabel : String) (names : List String) : String :=
  ("Multiple ") ++ categoryLabel ++ (" found: [") ++ quoteJoin names ++
    ("]. Please export only one using __all__ = [") ++ sglQuote ++ names.headD ("") ++
    sglQuote ++ ("]")

/-- Rendering of a `DetectError` as the message of the raised exception. -/
def detectErrorMessage : DetectError → String
  | DetectError.ambiguous lbl names => ambiguousMessage lbl names
  | DetectError.noPattern => ("No valid agent pattern found")

/-- One line of `requirements.txt` as processed by the loop in
`load_requirements` (identical in both scripts, lines 152-178 / 102-128):
strip, skip empty and `#`-prefixed lines, skip `-e ` and `-r ` lines, cut
an inline comment at the first `#` and strip again, and skip the line when
nothing remains; `some dep` is the dependency added to the set. -/
def parseLine (rawLine : String) : Option String :=
  let line := pyStrip rawLine
  if line == ("") then none
  else if strStartsWith line ("#") then none
  else if strStartsWith line ("-e ") then none
  else if strStartsWith line ("-r ") then none
  else
    let cleaned :=
      if strContains line ("#") then
        pyStrip (String.mk (line.data.takeWhile (fun c => c != '#')))
      else line
    if cleaned == ("") then none else some cleaned

/-- Python's `set.add`, on the list that models the dependency set. -/
def addDependency (deps : List String) (dep : String) : List String :=
  if dep ∈ deps then deps else deps ++ [dep]

/-- The body of the `for` loop of `load_requirements` for one raw line. -/
def requirementsStep (deps : List String) (rawLine : String) : List String :=
  match parseLine rawLine with
  | some dep => addDependency deps dep
  | none => deps

/-- `load_requirements` of `agno_modal_deploy.py` (lines 133-195) on the lines
of `requirements.txt`: the set starts with the baseline `GitPython`, every
parsed line is added, and a `ValueError` is raised when
`len(dependencies) <= 1`. (The Python code finally sorts the set into a
list; the model returns the set in insertion order, which the claims treat
as a set.) -/
def load_requirements (fileLines : List String) : Except String (List String) :=
  let deps := fileLines.foldl requirementsStep [("GitPython")]
  if deps.length ≤ 1 then
    Except.error ("No valid dependencies found in requirements.txt")
  else Except.ok deps

/-- `load_requirements` of `agno_modal_deploy_agui.py` (lines 81-146): the
baseline is `GitPython` plus `ag-ui-protocol` and the failure threshold is
`len(dependencies) <= 2`. -/
def agui_load_requirements (fileLines : List String) : Except String (List String) :=
  let deps := fileLines.foldl requirementsStep [("GitPython"), ("ag-ui-protocol")]
  if deps.length ≤ 2 then
    Except.error ("No valid dependencies found in requirements.txt")
  else Except.ok deps

/-- The public-endpoint set of `TokenAuthMiddleware.__init__` (lines 377-383):
`/health` and `/openapi.json` always, plus `/docs` and `/redoc` when
`protect_docs` is false. -/
def publicEndpoints (protectDocs : Bool) : List String :=
  if protectDocs then [("/health"), ("/openapi.json")]
  else [("/health"), ("/openapi.json"), ("/docs"), ("/redoc")]

/-- `dict(scope["headers"]).get(key)`: building a dict from a pair list keeps
the last value bound to a repeated key. -/
def headerLookup (headers : List (String × String)) (key : String) : Option String :=
  (headers.reverse.find? (fun p => p.fst == key)).map Prod.snd

/-- Outcome of one ASGI event passed through `TokenAuthMiddleware.__call__`:
either the event is forwarded to the wrapped application or a response is
sent by `_send_auth_error` and the wrapped application is never called. -/
inductive AsgiOutcome where
  | forwarded
  | rejected (status : Nat) (body : List (String × String))
deriving DecidableEq

/-- The JSON body sent by `TokenAuthMiddleware._send_auth_error`
(lines 420-441), as its ordered key/value pairs. -/
def authErrorBody (message : String) : List (String × String) :=
  [(("error"), ("Authentication required")),
   (("message"), message),
   (("hint"), ("Include ") ++ sglQuote ++ ("Authorization: Bearer <your-token>") ++ sglQuote ++ (" header"))]

/-- `TokenAuthMiddleware.__call__` (lines 385-418): non-http scopes and public
paths are forwarded; otherwise the `authorization` header is required, must
start with `Bearer `, and the rest of it (`auth_str[7:]`) must equal the
configured token, each failure rejecting with a 401 response. The guard
`if not auth_header:` (line 401) is a Python truthiness test, so a header
that is present with an empty value is treated exactly like an absent one
and also rejected with `Missing Authorization header`. -/
def tokenAuthMiddlewareCall (token : String) (protectDocs : Bool)
    (scopeType : String) (path : String) (headers : List (String × String)) : AsgiOutcome :=
  if scopeType != ("http") then AsgiOutcome.forwarded
  else if path ∈ publicEndpoints protectDocs then AsgiOutcome.forwarded
  else
    match headerLookup headers ("authorization") with
    | none => AsgiOutcome.rejected 401 (authErrorBody ("Missing Authorization header"))
    | some authStr =>
      if authStr == ("") then
        AsgiOutcome.rejected 401 (authErrorBody ("Missing Authorization header"))
      else if !strStartsWith authStr ("Bearer ") then
        AsgiOutcome.rejected 401
          (authErrorBody ("Invalid Authorization header format. Expected: Bearer <token>"))
      else if strDropChars authStr 7 != token then
        AsgiOutcome.rejected 401 (authErrorBody ("Invalid authentication token"))
      else AsgiOutcome.forwarded

/-- `isinstance(obj, FastAPIApp)` on a modelled value. -/
def isFastAPIAppInstance : PyValue → Bool
  | PyValue.instFastAPIApp _ => true
  | _ => false

/-- `isinstance(obj, AGUIApp)` on a modelled value. -/
def isAGUIAppInstance : PyValue → Bool
  | PyValue.instAGUIApp _ => true
  | _ => false

/-- `isinstance(obj, Agent)` on a modelled value. -/
def isAgentInstance : PyValue → Bool
  | PyValue.instAgent _ => true
  | _ => false

/-- `isinstance(obj, Team)` on a modelled value. -/
def isTeamInstance : PyValue → Bool
  | PyValue.instTeam _ => true
  | _ => false

/-- The return-type check of `fastapi_app` (lines 452-468 of
`agno_modal_deploy.py`): after a Function-category candidate is invoked with
no arguments, the returned value must be a `FastAPIApp` instance for
`fastapi_function` and an `Agent` instance for `agent_function`, else a
`TypeError` is raised; variable patterns perform no such check. -/
def fastapi_app_returnCheck (patternType patternName : String) (returned : PyValue) :
    Except String PyValue :=
  if patternType == ("fastapi_function") then
    if isFastAPIAppInstance returned then Except.ok returned
    else Except.error (patternName ++ ("() must return a FastAPIApp instance"))
  else if patternType == ("agent_function") then
    if isAgentInstance returned then Except.ok returned
    else Except.error (patternName ++ ("() must return an Agent instance"))
  else Except.ok returned

/-- The return-type check of `agui_app` (lines 377-409 of
`agno_modal_deploy_agui.py`): `agui_function` must return an `AGUIApp`,
`agent_function` an `Agent`, `team_function` a `Team`. -/
def agui_app_returnCheck (patternType patternName : String) (returned : PyValue) :
    Except String PyValue :=
  if patternType == ("agui_function") then
    if isAGUIAppInstance returned then Except.ok returned
    else Except.error (patternName ++ ("() must return an AGUIApp instance"))
  else if patternType == ("agent_function") then
    if isAgentInstance returned then Except.ok returned
    else Except.error (patternName ++ ("() must return an Agent instance"))
  else if patternType == ("team_function") then
    if isTeamInstance returned then Except.ok returned
    else Except.error (patternName ++ ("() must return a Team instance"))
  else Except.ok returned

/-! Concrete example modules used to instantiate the theorems. -/

/-- A module exporting an App-returning factory alongside a directly exported
`Agent` instance (the shape of `financial_agent_app_multiple_patterns.py`). -/
def demoAppFnAgentVar : PyModule :=
  ⟨("agno_agents.demo"),
   [(("create_fastapi_app"), PyValue.callableFn (some ("agno_agents.demo")) false),
    (("financial_agent"), PyValue.instAgent (some ("agno_agents.demo")))],
   none⟩

/-- An AG-UI module exporting an AGUIApp-returning factory alongside a
directly exported `Team` instance. -/
def demoAguiFnTeamVar : PyModule :=
  ⟨("agno_agents.demo_agui"),
   [(("create_agui_app"), PyValue.callableFn (some ("agno_agents.demo_agui")) false),
    (("research_team"), PyValue.instTeam (some ("agno_agents.demo_agui")))],
   none⟩

/-- A module exporting two Agent-returning factories and nothing else. -/
def demoTwoAgentFns : PyModule :=
  ⟨("agno_agents.demo2"),
   [(("create_agent"), PyValue.callableFn (some ("agno_agents.demo2")) false),
    (("create_trading_agent"), PyValue.callableFn (some ("agno_agents.demo2")) false)],
   none⟩

/-- An AG-UI module exporting two Team-returning factories. -/
def demoTwoTeamFns : PyModule :=
  ⟨("agno_agents.demo3"),
   [(("create_team"), PyValue.callableFn (some ("agno_agents.demo3")) false),
    (("create_research_team"), PyValue.callableFn (some ("agno_agents.demo3")) false)],
   none⟩

/-- A module declaring `__all__ = ["financial_agent"]` while also exporting a
matching App factory that is absent from the list. -/
def demoRestrictedAll : PyModule :=
  ⟨("agno_agents.demo4"),
   [(("create_fastapi_app"), PyValue.callableFn (some ("agno_agents.demo4")) false),
    (("financial_agent"), PyValue.instAgent (some ("agno_agents.demo4")))],
   some [("financial_agent")]⟩

/-- A module whose only export is a callable named `Create_fastapi_app`:
its lowercase name starts with `create` but the original name does not. -/
def demoCapitalizedFactory : PyModule :=
  ⟨("agno_agents.demo5"),
   [(("Create_fastapi_app"), PyValue.callableFn (some ("agno_agents.demo5")) false)],
   none⟩

/-! Helper lemmas about the priority cascade. -/

theorem selectCategory_nil (pt lbl : String) (lower : Except DetectError (String × String)) :
    selectCategory pt lbl [] lower = lower := rfl

theorem selectCategory_ok_cases {pt lbl : String} {ns : List String}
    {lower : Except DetectError (String × String)} {r : String × String}
    (h : selectCategory pt lbl ns lower = Except.ok r) :
    (∃ n, ns = [n] ∧ r = (pt, n)) ∨ (ns = [] ∧ lower = Except.ok r) := by
  cases ns with
  | nil => exact Or.inr ⟨rfl, h⟩
  | cons a t =>
    cases t with
    | nil =>
      simp only [selectCategory, Except.ok.injEq] at h
      exact Or.inl ⟨a, rfl, h.symm⟩
    | cons b t2 => exact Except.noConfusion h

theorem mem_candidates {m : PyModule} {c : PatternCat} {n : String}
    (h : n ∈ candidates m c) :
    n ∈ availableNames m ∧ ∃ v, getAttr m n = some v ∧ classifyExport m.name n v = some c := by
  unfold candidates at h
  have h2 := List.mem_filter.mp h
  refine ⟨h2.1, ?_⟩
  have hp := h2.2
  cases h3 : getAttr m n with
  | none => rw [h3] at hp; exact absurd hp (by simp)
  | some v =>
    rw [h3] at hp
    exact ⟨v, rfl, by simpa using hp⟩

theorem mem_aguiCandidates {m : PyModule} {c : AguiCat} {n : String}
    (h : n ∈ aguiCandidates m c) :
    n ∈ availableNames m ∧ ∃ v, getAttr m n = some v ∧ classifyAguiExport m.name n v = some c := by
  unfold aguiCandidates at h
  have h2 := List.mem_filter.mp h
  refine ⟨h2.1, ?_⟩
  have hp := h2.2
  cases h3 : getAttr m n with
  | none => rw [h3] at hp; exact absurd hp (by simp)
  | some v =>
    rw [h3] at hp
    exact ⟨v, rfl, by simpa using hp⟩

theorem catRank_injective : ∀ a b : PatternCat, catRank a = catRank b → a = b := by decide

theorem aguiCatRank_injective : ∀ a b : AguiCat, aguiCatRank a = aguiCatRank b → a = b := by decide

/-- When every higher-priority category is empty, `detect_agent_pattern` is
fully determined by the winning category's candidate list. -/
theorem detect_agent_winner_cases (m : PyModule) (c : PatternCat)
    (hhigh : ∀ c2, catRank c2 < catRank c → candidates m c2 = []) :
    (∀ n, candidates m c = [n] →
       detect_agent_pattern m = Except.ok (patternTypeOf c, n)) ∧
    (∀ n1 n2 rest, candidates m c = n1 :: n2 :: rest →
       detect_agent_pattern m =
         Except.error (DetectError.ambiguous (categoryLabelOf c) (n1 :: n2 :: rest))) := by
  cases c with
  | fastapiFunction =>
    constructor
    · intro n hn
      unfold detect_agent_pattern
      rw [hn]
      rfl
    · intro n1 n2 rest hn
      unfold detect_agent_pattern
      rw [hn]
      rfl
  | agentFunction =>
    have h0 : candidates m PatternCat.fastapiFunction = [] := hhigh _ (by decide)
    constructor
    · intro n hn
      unfold detect_agent_pattern
      rw [h0, hn]
      rfl
    · intro n1 n2 rest hn
      unfold detect_agent_pattern
      rw [h0, hn]
      rfl
  | fastapiVariable =>
    have h0 : candidates m PatternCat.fastapiFunction = [] := hhigh _ (by decide)
    have h1 : candidates m PatternCat.agentFunction = [] := hhigh _ (by decide)
    constructor
    · intro n hn
      unfold detect_agent_pattern
      rw [h0, h1, hn]
      rfl
    · intro n1 n2 rest hn
      unfold detect_agent_pattern
      rw [h0, h1, hn]
      rfl
  | agentVariable =>
    have h0 : candidates m PatternCat.fastapiFunction = [] := hhigh _ (by decide)
    have h1 : candidates m PatternCat.agentFunction = [] := hhigh _ (by decide)
    have h2 : candidates m PatternCat.fastapiVariable = [] := hhigh _ (by decide)
    constructor
    · intro n hn
      unfold detect_agent_pattern
      rw [h0, h1, h2, hn]
      rfl
    · intro n1 n2 rest hn
      unfold detect_agent_pattern
      rw [h0, h1, h2, hn]
      rfl

/-- When every higher-priority category is empty, `detect_agui_pattern` is
fully determined by the winning category's candidate list. -/
theorem detect_agui_winner_cases (m : PyModule) (c : AguiCat)
    (hhigh : ∀ c2, aguiCatRank c2 < aguiCatRank c → aguiCandidates m c2 = []) :
    (∀ n, aguiCandidates m c = [n] →
       detect_agui_pattern m = Except.ok (aguiPatternTypeOf c, n)) ∧
    (∀ n1 n2 rest, aguiCandidates m c = n1 :: n2 :: rest →
       detect_agui_pattern m =
         Except.error (DetectError.ambiguous (aguiCategoryLabelOf c) (n1 :: n2 :: rest))) := by
  cases c with
  | aguiFunction =>
    refine ⟨fun n hn => ?_, fun n1 n2 rest hn => ?_⟩ <;>
      (unfold detect_agui_pattern; rw [hn]; rfl)
  | agentFunction =>
    have h0 : aguiCandidates m AguiCat.aguiFunction = [] := hhigh _ (by decide)
    refine ⟨fun n hn => ?_, fun n1 n2 rest hn => ?_⟩ <;>
      (unfold detect_agui_pattern; rw [h0, hn]; rfl)
  | teamFunction =>
    have h0 : aguiCandidates m AguiCat.aguiFunction = [] := hhigh _ (by decide)
    have h1 : aguiCandidates m AguiCat.agentFunction = [] := hhigh _ (by decide)
    refine ⟨fun n hn => ?_, fun n1 n2 rest hn => ?_⟩ <;>
      (unfold detect_agui_pattern; rw [h0, h1, hn]; rfl)
  | aguiVariable =>
    have h0 : aguiCandidates m AguiCat.aguiFunction = [] := hhigh _ (by decide)
    have h1 : aguiCandidates m AguiCat.agentFunction = [] := hhigh _ (by decide)
    have h2 : aguiCandidates m AguiCat.teamFunction = [] := hhigh _ (by decide)
    refine ⟨fun n hn => ?_, fun n1 n2 rest hn => ?_⟩ <;>
      (unfold detect_agui_pattern; rw [h0, h1, h2, hn]; rfl)
  | agentVariable =>
    have h0 : aguiCandidates m AguiCat.aguiFunction = [] := hhigh _ (by decide)
    have h1 : aguiCandidates m AguiCat.agentFunction = [] := hhigh _ (by decide)
    have h2 : aguiCandidates m AguiCat.teamFunction = [] := hhigh _ (by decide)
    have h3 : aguiCandidates m AguiCat.aguiVariable = [] := hhigh _ (by decide)
    refine ⟨fun n hn => ?_, fun n1 n2 rest hn => ?_⟩ <;>
      (unfold detect_agui_pattern; rw [h0, h1, h2, h3, hn]; rfl)
  | teamVariable =>
    have h0 : aguiCandidates m AguiCat.aguiFunction = [] := hhigh _ (by decide)
    have h1 : aguiCandidates m AguiCat.agentFunction = [] := hhigh _ (by decide)
    have h2 : aguiCandidates m AguiCat.teamFunction = [] := hhigh _ (by decide)
    have h3 : aguiCandidates m AguiCat.aguiVariable = [] := hhigh _ (by decide)
    have h4 : aguiCandidates m AguiCat.agentVariable = [] := hhigh _ (by decide)
    refine ⟨fun n hn => ?_, fun n1 n2 rest hn => ?_⟩ <;>
      (unfold detect_agui_pattern; rw [h0, h1, h2, h3, h4, hn]; rfl)

/-- A successful `detect_agent_pattern` run identifies a category whose
candidate list is exactly the returned name and whose higher-priority
categories are all empty. -/
theorem detect_agent_pattern_ok_inv {m : PyModule} {pt n : String}
    (h : detect_agent_pattern m = Except.ok (pt, n)) :
    ∃ c, pt = patternTypeOf c ∧ candidates m c = [n] ∧
      ∀ c2, catRank c2 < catRank c → candidates m c2 = [] := by
  unfold detect_agent_pattern at h
  rcases selectCategory_ok_cases h with ⟨x, hx, hr⟩ | ⟨h0, h⟩
  · rw [Prod.mk.injEq] at hr
    exact ⟨PatternCat.fastapiFunction, hr.1, hr.2 ▸ hx,
      fun c2 hc2 => absurd hc2 (by cases c2 <;> decide)⟩
  · rcases selectCategory_ok_cases h with ⟨x, hx, hr⟩ | ⟨h1, h⟩
    · rw [Prod.mk.injEq] at hr
      refine ⟨PatternCat.agentFunction, hr.1, hr.2 ▸ hx, ?_⟩
      intro c2 hc2
      cases c2 <;> first | exact h0 | exact absurd hc2 (by decide)
    · rcases selectCategory_ok_cases h with ⟨x, hx, hr⟩ | ⟨h2, h⟩
      · rw [Prod.mk.injEq] at hr
        refine ⟨PatternCat.fastapiVariable, hr.1, hr.2 ▸ hx, ?_⟩
        intro c2 hc2
        cases c2 <;> first | exact h0 | exact h1 | exact absurd hc2 (by decide)
      · rcases selectCategory_ok_cases h with ⟨x, hx, hr⟩ | ⟨h3, h⟩
        · rw [Prod.mk.injEq] at hr
          refine ⟨PatternCat.agentVariable, hr.1, hr.2 ▸ hx, ?_⟩
          intro c2 hc2
          cases c2 <;> first | exact h0 | exact h1 | exact h2 | exact absurd hc2 (by decide)
        · exact Except.noConfusion h

/-- A successful `detect_agui_pattern` run identifies a category whose
candidate list is exactly the returned name and whose higher-priority
categories are all empty. -/
theorem detect_agui_pattern_ok_inv {m : PyModule} {pt n : String}
    (h : detect_agui_pattern m = Except.ok (pt, n)) :
    ∃ c, pt = aguiPatternTypeOf c ∧ aguiCandidates m c = [n] ∧
      ∀ c2, aguiCatRank c2 < aguiCatRank c → aguiCandidates m c2 = [] := by
  unfold detect_agui_pattern at h
  rcases selectCategory_ok_cases h with ⟨x, hx, hr⟩ | ⟨h0, h⟩
  · rw [Prod.mk.injEq] at hr
    exact ⟨AguiCat.aguiFunction, hr.1, hr.2 ▸ hx,
      fun c2 hc2 => absurd hc2 (by cases c2 <;> decide)⟩
  · rcases selectCategory_ok_cases h with ⟨x, hx, hr⟩ | ⟨h1, h⟩
    · rw [Prod.mk.injEq] at hr
      refine ⟨AguiCat.agentFunction, hr.1, hr.2 ▸ hx, ?_⟩
      intro c2 hc2
      cases c2 <;> first | exact h0 | exact absurd hc2 (by decide)
    · rcases selectCategory_ok_cases h with ⟨x, hx, hr⟩ | ⟨h2, h⟩
      · rw [Prod.mk.injEq] at hr
        refine ⟨AguiCat.teamFunction, hr.1, hr.2 ▸ hx, ?_⟩
        intro c2 hc2
        cases c2 <;> first | exact h0 | exact h1 | exact absurd hc2 (by decide)
      · rcases selectCategory_ok_cases h with ⟨x, hx, hr⟩ | ⟨h3, h⟩
        · rw [Prod.mk.injEq] at hr
          refine ⟨AguiCat.aguiVariable, hr.1, hr.2 ▸ hx, ?_⟩
          intro c2 hc2
          cases c2 <;> first | exact h0 | exact h1 | exact h2 | exact absurd hc2 (by decide)
        · rcases selectCategory_ok_cases h with ⟨x, hx, hr⟩ | ⟨h4, h⟩
          · rw [Prod.mk.injEq] at hr
            refine ⟨AguiCat.agentVariable, hr.1, hr.2 ▸ hx, ?_⟩
            intro c2 hc2
            cases c2 <;> first | exact h0 | exact h1 | exact h2 | exact h3 | exact absurd hc2 (by decide)
          · rcases selectCategory_ok_cases h with ⟨x, hx, hr⟩ | ⟨h5, h⟩
            · rw [Prod.mk.injEq] at hr
              refine ⟨AguiCat.teamVariable, hr.1, hr.2 ▸ hx, ?_⟩
              intro c2 hc2
              cases c2 <;>
                first | exact h0 | exact h1 | exact h2 | exact h3 | exact h4 |
                  exact absurd hc2 (by decide)
            · exact Except.noConfusion h

/-- C1: For every module whose exports yield candidates in more than one
pattern category, resolution (`detect_agent_pattern` / `detect_agui_pattern`)
returns a candidate from the highest-priority non-empty category under the
fixed order AppFunction > AgentFunction > (TeamFunction >) AppVariable >
AgentVariable (> TeamVariable), and candidates in every lower-priority
category are ignored entirely: whenever a category is non-empty and all
higher-priority categories are empty, a singleton winning category is
returned verbatim, and any returned candidate comes from that category. -/
theorem detect_pattern_priority_selection :
    (∀ (m : PyModule) (c : PatternCat),
      candidates m c ≠ [] →
      (∀ c2, catRank c2 < catRank c → candidates m c2 = []) →
      ((∀ n, candidates m c = [n] →
          detect_agent_pattern m = Except.ok (patternTypeOf c, n)) ∧
       (∀ pt n, detect_agent_pattern m = Except.ok (pt, n) →
          pt = patternTypeOf c ∧ n ∈ candidates m c))) ∧
    (∀ (m : PyModule) (c : AguiCat),
      aguiCandidates m c ≠ [] →
      (∀ c2, aguiCatRank c2 < aguiCatRank c → aguiCandidates m c2 = []) →
      ((∀ n, aguiCandidates m c = [n] →
          detect_agui_pattern m = Except.ok (aguiPatternTypeOf c, n)) ∧
       (∀ pt n, detect_agui_pattern m = Except.ok (pt, n) →
          pt = aguiPatternTypeOf c ∧ n ∈ aguiCandidates m c))) := by
  constructor
  · intro m c hne hhigh
    refine ⟨(detect_agent_winner_cases m c hhigh).1, ?_⟩
    intro pt n h
    obtain ⟨c2, hpt, hc2, hhigh2⟩ := detect_agent_pattern_ok_inv h
    have hcc : c2 = c := by
      rcases Nat.lt_trichotomy (catRank c2) (catRank c) with hlt | heq | hgt
      · rw [hhigh c2 hlt] at hc2
        exact List.noConfusion hc2
      · exact catRank_injective _ _ heq
      · exact absurd (hhigh2 c hgt) hne
    subst hcc
    exact ⟨hpt, by rw [hc2]; exact List.mem_singleton.mpr rfl⟩
  · intro m c hne hhigh
    refine ⟨(detect_agui_winner_cases m c hhigh).1, ?_⟩
    intro pt n h
    obtain ⟨c2, hpt, hc2, hhigh2⟩ := detect_agui_pattern_ok_inv h
    have hcc : c2 = c := by
      rcases Nat.lt_trichotomy (aguiCatRank c2) (aguiCatRank c) with hlt | heq | hgt
      · rw [hhigh c2 hlt] at hc2
        exact List.noConfusion hc2
      · exact aguiCatRank_injective _ _ heq
      · exact absurd (hhigh2 c hgt) hne
    subst hcc
    exact ⟨hpt, by rw [hc2]; exact List.mem_singleton.mpr rfl⟩

/-- C1 witness: an App-returning factory exported alongside a direct `Agent`
(resp. `Team`) variable resolves to the factory, never the variable. -/
theorem detect_pattern_priority_selection_witness :
    detect_agent_pattern demoAppFnAgentVar =
      Except.ok (patternTypeOf PatternCat.fastapiFunction, ("create_fastapi_app")) ∧
    detect_agui_pattern demoAguiFnTeamVar =
      Except.ok (aguiPatternTypeOf AguiCat.aguiFunction, ("create_agui_app")) :=
  ⟨(detect_pattern_priority_selection.1 demoAppFnAgentVar PatternCat.fastapiFunction
      (by decide) (by decide)).1 ("create_fastapi_app") (by decide),
   (detect_pattern_priority_selection.2 demoAguiFnTeamVar AguiCat.aguiFunction
      (by decide) (by decide)).1 ("create_agui_app") (by decide)⟩

/-! Lemmas about the text of the ambiguity message. -/

theorem quoteJoin_mem : ∀ (names : List String) (x : String), x ∈ names →
    ∃ pre post, quoteJoin names = pre ++ (x ++ post) := by
  intro names
  induction names with
  | nil => intro x hx; cases hx
  | cons a t ih =>
    intro x hx
    rcases List.mem_cons.mp hx with hxa | hxt
    · subst hxa
      cases t with
      | nil =>
        exact ⟨sglQuote, sglQuote, by simp [quoteJoin, String.append_assoc]⟩
      | cons b t2 =>
        refine ⟨sglQuote, sglQuote ++ (", ") ++ quoteJoin (b :: t2), ?_⟩
        simp [quoteJoin, String.append_assoc]
    · cases t with
      | nil => cases hxt
      | cons b t2 =>
        obtain ⟨p, q, hp⟩ := ih x hxt
        refine ⟨sglQuote ++ a ++ sglQuote ++ (", ") ++ p, q, ?_⟩
        rw [show quoteJoin (a :: b :: t2) =
              sglQuote ++ a ++ sglQuote ++ (", ") ++ quoteJoin (b :: t2) from rfl, hp]
        simp [String.append_assoc]

theorem ambiguousMessage_mentions (lbl : String) (names : List String) (x : String)
    (hx : x ∈ names) : ∃ pre post, ambiguousMessage lbl names = pre ++ (x ++ post) := by
  obtain ⟨p, q, hp⟩ := quoteJoin_mem names x hx
  refine ⟨("Multiple ") ++ lbl ++ (" found: [") ++ p,
    q ++ (("]. Please export only one using __all__ = [") ++ sglQuote ++ names.headD ("") ++
      sglQuote ++ ("]")), ?_⟩
  unfold ambiguousMessage
  rw [hp]
  simp [String.append_assoc]

theorem ambiguousMessage_instruction (lbl n1 : String) (t : List String) :
    ∃ pre, ambiguousMessage lbl (n1 :: t) =
      pre ++ (("__all__ = [") ++ (sglQuote ++ (n1 ++ (sglQuote ++ ("]"))))) := by
  refine ⟨("Multiple ") ++ lbl ++ (" found: [") ++ quoteJoin (n1 :: t) ++
    ("]. Please export only one using "), ?_⟩
  unfold ambiguousMessage
  rw [show (("]. Please export only one using __all__ = [") : String) =
        ("]. Please export only one using ") ++ ("__all__ = [") from by decide]
  simp only [String.append_assoc, List.headD_cons]

/-- C2: For every module whose highest-priority non-empty category contains
two or more candidates, resolution fails with the ambiguity `ValueError`
carrying exactly the full conflicting candidate list (never picking one
arbitrarily), and the rendered message names every conflicting candidate and
instructs the caller to declare `__all__` with exactly one name. -/
theorem detect_pattern_ambiguous_error :
    (∀ (m : PyModule) (c : PatternCat) (n1 n2 : String) (rest : List String),
      (∀ c2, catRank c2 < catRank c → candidates m c2 = []) →
      candidates m c = n1 :: n2 :: rest →
      detect_agent_pattern m =
        Except.error (DetectError.ambiguous (categoryLabelOf c) (n1 :: n2 :: rest)) ∧
      (∀ x, x ∈ n1 :: n2 :: rest → ∃ pre post,
        detectErrorMessage (DetectError.ambiguous (categoryLabelOf c) (n1 :: n2 :: rest)) =
          pre ++ (x ++ post)) ∧
      (∃ pre,
        detectErrorMessage (DetectError.ambiguous (categoryLabelOf c) (n1 :: n2 :: rest)) =
          pre ++ (("__all__ = [") ++ (sglQuote ++ (n1 ++ (sglQuote ++ ("]"))))))) ∧
    (∀ (m : PyModule) (c : AguiCat) (n1 n2 : String) (rest : List String),
      (∀ c2, aguiCatRank c2 < aguiCatRank c → aguiCandidates m c2 = []) →
      aguiCandidates m c = n1 :: n2 :: rest →
      detect_agui_pattern m =
        Except.error (DetectError.ambiguous (aguiCategoryLabelOf c) (n1 :: n2 :: rest)) ∧
      (∀ x, x ∈ n1 :: n2 :: rest → ∃ pre post,
        detectErrorMessage (DetectError.ambiguous (aguiCategoryLabelOf c) (n1 :: n2 :: rest)) =
          pre ++ (x ++ post)) ∧
      (∃ pre,
        detectErrorMessage (DetectError.ambiguous (aguiCategoryLabelOf c) (n1 :: n2 :: rest)) =
          pre ++ (("__all__ = [") ++ (sglQuote ++ (n1 ++ (sglQuote ++ ("]"))))))) := by
  constructor
  · intro m c n1 n2 rest hhigh hlist
    refine ⟨(detect_agent_winner_cases m c hhigh).2 n1 n2 rest hlist, ?_, ?_⟩
    · intro x hx
      exact ambiguousMessage_mentions (categoryLabelOf c) (n1 :: n2 :: rest) x hx
    · exact ambiguousMessage_instruction (categoryLabelOf c) n1 (n2 :: rest)
  · intro m c n1 n2 rest hhigh hlist
    refine ⟨(detect_agui_winner_cases m c hhigh).2 n1 n2 rest hlist, ?_, ?_⟩
    · intro x hx
      exact ambiguousMessage_mentions (aguiCategoryLabelOf c) (n1 :: n2 :: rest) x hx
    · exact ambiguousMessage_instruction (aguiCategoryLabelOf c) n1 (n2 :: rest)

/-- C2 witness: two Agent factories (resp. two Team factories) in the winning
category make resolution fail with the ambiguity error listing both names. -/
theorem detect_pattern_ambiguous_error_witness :
    detect_agent_pattern demoTwoAgentFns =
      Except.error (DetectError.ambiguous (categoryLabelOf PatternCat.agentFunction)
        [("create_agent"), ("create_trading_agent")]) ∧
    detect_agui_pattern demoTwoTeamFns =
      Except.error (DetectError.ambiguous (aguiCategoryLabelOf AguiCat.teamFunction)
        [("create_team"), ("create_research_team")]) :=
  ⟨(detect_pattern_ambiguous_error.1 demoTwoAgentFns PatternCat.agentFunction
      ("create_agent") ("create_trading_agent") [] (by decide) (by decide)).1,
   (detect_pattern_ambiguous_error.2 demoTwoTeamFns AguiCat.teamFunction
      ("create_team") ("create_research_team") [] (by decide) (by decide)).1⟩

/-- C3: When a module declares `__all__`, candidate discovery considers
exactly those names: an export absent from `__all__` is never a candidate of
any category and is never the selected result, in both detectors; when no
`__all__` is declared, all non-underscore-prefixed exported names are
enumerated. -/
theorem explicit_export_list_restricts_discovery :
    (∀ (m : PyModule) (l : List String) (c : PatternCat) (n : String),
      m.dunderAll = some l → ¬ n ∈ l → ¬ n ∈ candidates m c) ∧
    (∀ (m : PyModule) (l : List String) (pt n : String),
      m.dunderAll = some l → detect_agent_pattern m = Except.ok (pt, n) → n ∈ l) ∧
    (∀ (m : PyModule) (l : List String) (c : AguiCat) (n : String),
      m.dunderAll = some l → ¬ n ∈ l → ¬ n ∈ aguiCandidates m c) ∧
    (∀ (m : PyModule) (l : List String) (pt n : String),
      m.dunderAll = some l → detect_agui_pattern m = Except.ok (pt, n) → n ∈ l) ∧
    (∀ m : PyModule, m.dunderAll = none →
      availableNames m = (m.exports.map Prod.fst).filter (fun n => !strStartsWith n ("_"))) := by
  have havail : ∀ (m : PyModule) (l : List String), m.dunderAll = some l →
      availableNames m = l := by
    intro m l hall
    unfold availableNames
    rw [hall]
  refine ⟨?_, ?_, ?_, ?_, ?_⟩
  · intro m l c n hall hnl hmem
    have hav := (mem_candidates hmem).1
    rw [havail m l hall] at hav
    exact hnl hav
  · intro m l pt n hall h
    obtain ⟨c, -, hc, -⟩ := detect_agent_pattern_ok_inv h
    have hmem : n ∈ candidates m c := by rw [hc]; exact List.mem_singleton.mpr rfl
    have hav := (mem_candidates hmem).1
    rw [havail m l hall] at hav
    exact hav
  · intro m l c n hall hnl hmem
    have hav := (mem_aguiCandidates hmem).1
    rw [havail m l hall] at hav
    exact hnl hav
  · intro m l pt n hall h
    obtain ⟨c, -, hc, -⟩ := detect_agui_pattern_ok_inv h
    have hmem : n ∈ aguiCandidates m c := by rw [hc]; exact List.mem_singleton.mpr rfl
    have hav := (mem_aguiCandidates hmem).1
    rw [havail m l hall] at hav
    exact hav
  · intro m h
    unfold availableNames
    rw [h]

/-- C3 witness: in a module declaring `__all__ = ["financial_agent"]`, the
otherwise-matching export `create_fastapi_app` is not a candidate, and the
selected name belongs to `__all__`. -/
theorem explicit_export_list_restricts_discovery_witness :
    ¬ ("create_fastapi_app") ∈ candidates demoRestrictedAll PatternCat.fastapiFunction ∧
    ("financial_agent") ∈ [("financial_agent")] :=
  ⟨explicit_export_list_restricts_discovery.1 demoRestrictedAll [("financial_agent")]
      PatternCat.fastapiFunction ("create_fastapi_app") rfl (by decide),
   explicit_export_list_restricts_discovery.2.1 demoRestrictedAll [("financial_agent")]
      ("agent_variable") ("financial_agent") rfl (by decide)⟩

/-- C5: A callable export is ever collected as a (Function-kind) candidate
only when its recorded `__module__` equals the target module's `__name__`:
in both detectors, membership of a callable in any candidate list forces
ownership by the target module, regardless of the callable's name. -/
theorem function_candidates_require_module_ownership :
    (∀ (m : PyModule) (c : PatternCat) (n : String) (owningModule : Option String)
      (isClass : Bool),
      n ∈ candidates m c →
      getAttr m n = some (PyValue.callableFn owningModule isClass) →
      owningModule = some m.name) ∧
    (∀ (m : PyModule) (c : AguiCat) (n : String) (owningModule : Option String)
      (isClass : Bool),
      n ∈ aguiCandidates m c →
      getAttr m n = some (PyValue.callableFn owningModule isClass) →
      owningModule = some m.name) := by
  constructor
  · intro m c n owningModule isClass hmem hattr
    obtain ⟨-, v, hv, hcl⟩ := mem_candidates hmem
    obtain rfl := Option.some.inj (hattr.symm.trans hv)
    unfold classifyExport at hcl
    cases isClass with
    | true => simp at hcl
    | false =>
      cases owningModule with
      | none => simp at hcl
      | some owner =>
        simp only [Bool.false_eq_true, if_false] at hcl
        by_cases how : owner = m.name
        · rw [how]
        · rw [if_neg (by simpa using how)] at hcl
          exact Option.noConfusion hcl
  · intro m c n owningModule isClass hmem hattr
    obtain ⟨-, v, hv, hcl⟩ := mem_aguiCandidates hmem
    obtain rfl := Option.some.inj (hattr.symm.trans hv)
    unfold classifyAguiExport at hcl
    cases isClass with
    | true => simp at hcl
    | false =>
      cases owningModule with
      | none => simp at hcl
      | some owner =>
        simp only [Bool.false_eq_true, if_false] at hcl
        by_cases how : owner = m.name
        · rw [how]
        · rw [if_neg (by simpa using how)] at hcl
          exact Option.noConfusion hcl

/-- C5 witness: a module-owned factory is a candidate and the ownership
conclusion instantiates on it. -/
theorem function_candidates_require_module_ownership_witness :
    (some ("agno_agents.demo2") : Option String) = some demoTwoAgentFns.name :=
  function_candidates_require_module_ownership.1 demoTwoAgentFns PatternCat.agentFunction
    ("create_agent") (some ("agno_agents.demo2")) false (by decide) (by decide)

/-- C9: The declared-in-this-module restriction applies only to callables:
a direct instance of a recognized type is classified as the corresponding
Variable-kind candidate by type alone, whatever module it was created in or
imported from - no owning-module check is performed for instances. -/
theorem instance_candidates_classified_by_type_alone :
    ∀ (moduleName exportName : String) (createdIn : Option String),
      classifyExport moduleName exportName (PyValue.instFastAPIApp createdIn) =
        some PatternCat.fastapiVariable ∧
      classifyExport moduleName exportName (PyValue.instAgent createdIn) =
        some PatternCat.agentVariable ∧
      classifyAguiExport moduleName exportName (PyValue.instAGUIApp createdIn) =
        some AguiCat.aguiVariable ∧
      classifyAguiExport moduleName exportName (PyValue.instAgent createdIn) =
        some AguiCat.agentVariable ∧
      classifyAguiExport moduleName exportName (PyValue.instTeam createdIn) =
        some AguiCat.teamVariable :=
  fun _ _ _ => ⟨rfl, rfl, rfl, rfl, rfl⟩

/-- C4 counterexample: the callable name `Create_fastapi_app` has a lowercase
form that starts with `create` and contains both `fastapi` and `app`, yet the
code classifies it into no category at all (the `startswith("create")` check
runs on the original, un-lowercased name), so the claim's scoping by
lowercase `create`-prefix is false. -/
theorem create_keyword_case_counterexample :
    strStartsWith (strToLower ("Create_fastapi_app")) ("create") = true ∧
    strContains (strToLower ("Create_fastapi_app")) ("fastapi") = true ∧
    strContains (strToLower ("Create_fastapi_app")) ("app") = true ∧
    classifyCallableName ("Create_fastapi_app") = none ∧
    candidates demoCapitalizedFactory PatternCat.fastapiFunction = [] ∧
    detect_agent_pattern demoCapitalizedFactory = Except.error DetectError.noPattern := by
  decide

/-- C4 (amended): For every callable whose original name starts with
`create` (case-sensitively; keyword containment is checked on the lowercase
name), the multi-keyword App test precedes the single-keyword Agent and Team
tests: `fastapi`+`app` (or the exact name `create_fastapi_app`, or
`agui`+`app` in the AG-UI variant) classifies as App-function even when the
name also contains `agent`; a `create`-prefixed name containing `agent` that
fails the App test classifies as Agent-function; in the AG-UI variant a
`create`-prefixed name containing `team` that fails both earlier tests
classifies as Team-function; and classification assigns at most one
category. -/
theorem classify_callable_keyword_precedence :
    (∀ name, strStartsWith name ("create") = true →
      strContains (strToLower name) ("fastapi") = true →
      strContains (strToLower name) ("app") = true →
      classifyCallableName name = some PatternCat.fastapiFunction) ∧
    (classifyCallableName ("create_fastapi_app") = some PatternCat.fastapiFunction) ∧
    (∀ name, strStartsWith name ("create") = true →
      strContains (strToLower name) ("agent") = true →
      fastapiFunctionTest name = false →
      classifyCallableName name = some PatternCat.agentFunction) ∧
    (∀ name, strStartsWith name ("create") = true →
      strContains (strToLower name) ("agui") = true →
      strContains (strToLower name) ("app") = true →
      classifyAguiCallableName name = some AguiCat.aguiFunction) ∧
    (classifyAguiCallableName ("create_agui_app") = some AguiCat.aguiFunction) ∧
    (∀ name, strStartsWith name ("create") = true →
      strContains (strToLower name) ("agent") = true →
      aguiFunctionTest name = false →
      classifyAguiCallableName name = some AguiCat.agentFunction) ∧
    (∀ name, strStartsWith name ("create") = true →
      strContains (strToLower name) ("team") = true →
      aguiFunctionTest name = false → agentFunctionTest name = false →
      classifyAguiCallableName name = some AguiCat.teamFunction) ∧
    (∀ name c1 c2, classifyCallableName name = some c1 →
      classifyCallableName name = some c2 → c1 = c2) ∧
    (∀ name c1 c2, classifyAguiCallableName name = some c1 →
      classifyAguiCallableName name = some c2 → c1 = c2) := by
  refine ⟨?_, by decide, ?_, ?_, by decide, ?_, ?_, ?_, ?_⟩
  · intro name h1 h2 h3
    simp [classifyCallableName, fastapiFunctionTest, h1, h2, h3]
  · intro name h1 h2 happ
    simp [classifyCallableName, happ, agentFunctionTest, h1, h2]
  · intro name h1 h2 h3
    simp [classifyAguiCallableName, aguiFunctionTest, h1, h2, h3]
  · intro name h1 h2 happ
    simp [classifyAguiCallableName, happ, agentFunctionTest, h1, h2]
  · intro name h1 h2 happ hagent
    simp [classifyAguiCallableName, happ, hagent, teamFunctionTest, h1, h2]
  · intro name c1 c2 h1 h2
    rw [h1] at h2
    exact Option.some.inj h2
  · intro name c1 c2 h1 h2
    rw [h1] at h2
    exact Option.some.inj h2

/-- C4 witness: an agent-mentioning App-factory name still classifies as an
App function, and the single-keyword tests fire when the earlier tests
fail. -/
theorem classify_callable_keyword_precedence_witness :
    classifyCallableName ("create_fastapi_agent_app") = some PatternCat.fastapiFunction ∧
    classifyCallableName ("create_trading_agent") = some PatternCat.agentFunction ∧
    classifyAguiCallableName ("create_agui_app_for_agent") = some AguiCat.aguiFunction ∧
    classifyAguiCallableName ("create_research_team") = some AguiCat.teamFunction :=
  ⟨classify_callable_keyword_precedence.1 ("create_fastapi_agent_app")
      (by decide) (by decide) (by decide),
   classify_callable_keyword_precedence.2.2.1 ("create_trading_agent")
      (by decide) (by decide) (by decide),
   classify_callable_keyword_precedence.2.2.2.1 ("create_agui_app_for_agent")
      (by decide) (by decide) (by decide),
   classify_callable_keyword_precedence.2.2.2.2.2.2.1 ("create_research_team")
      (by decide) (by decide) (by decide) (by decide)⟩

/-! Lemmas about requirements parsing. -/

theorem parseLine_none_of_empty (l : String) (h : pyStrip l = ("")) : parseLine l = none := by
  unfold parseLine
  rw [h]
  rfl

theorem parseLine_none_of_comment (l : String)
    (h : strStartsWith (pyStrip l) ("#") = true) : parseLine l = none := by
  by_cases h0 : pyStrip l = ("")
  · exact parseLine_none_of_empty l h0
  · simp [parseLine, h0, h]

theorem parseLine_none_of_editable (l : String)
    (h : strStartsWith (pyStrip l) ("-e ") = true) : parseLine l = none := by
  by_cases h0 : pyStrip l = ("")
  · exact parseLine_none_of_empty l h0
  by_cases h1 : strStartsWith (pyStrip l) ("#") = true
  · exact parseLine_none_of_comment l h1
  simp [parseLine, h0, h1, h]

theorem parseLine_none_of_recursive (l : String)
    (h : strStartsWith (pyStrip l) ("-r ") = true) : parseLine l = none := by
  by_cases h0 : pyStrip l = ("")
  · exact parseLine_none_of_empty l h0
  by_cases h1 : strStartsWith (pyStrip l) ("#") = true
  · exact parseLine_none_of_comment l h1
  by_cases h2 : strStartsWith (pyStrip l) ("-e ") = true
  · exact parseLine_none_of_editable l h2
  simp [parseLine, h0, h1, h2, h]

theorem mem_pyStrip_data {s : String} {c : Char} (h : c ∈ (pyStrip s).data) : c ∈ s.data := by
  have h2 : c ∈ ((s.data.dropWhile Char.isWhitespace).reverse.dropWhile
      Char.isWhitespace).reverse := h
  have h3 := List.mem_reverse.mp h2
  have h4 : c ∈ (s.data.dropWhile Char.isWhitespace).reverse :=
    (List.dropWhile_suffix Char.isWhitespace).sublist.subset h3
  have h5 := List.mem_reverse.mp h4
  exact (List.dropWhile_suffix Char.isWhitespace).sublist.subset h5

theorem listContainsSub_single {c : Char} : ∀ l : List Char, c ∈ l →
    listContainsSub [c] l = true := by
  intro l
  induction l with
  | nil => intro h; cases h
  | cons a t ih =>
    intro h
    unfold listContainsSub
    rcases List.mem_cons.mp h with rfl | ht
    · simp [List.isPrefixOf]
    · rw [ih ht]
      simp

theorem parseLine_no_hash {l d : String} (hp : parseLine l = some d) :
    ¬ ('#') ∈ d.data := by
  intro hmem
  by_cases h0 : pyStrip l = ("")
  · rw [parseLine_none_of_empty l h0] at hp
    exact Option.noConfusion hp
  by_cases h1 : strStartsWith (pyStrip l) ("#") = true
  · rw [parseLine_none_of_comment l h1] at hp
    exact Option.noConfusion hp
  by_cases h2 : strStartsWith (pyStrip l) ("-e ") = true
  · rw [parseLine_none_of_editable l h2] at hp
    exact Option.noConfusion hp
  by_cases h3 : strStartsWith (pyStrip l) ("-r ") = true
  · rw [parseLine_none_of_recursive l h3] at hp
    exact Option.noConfusion hp
  unfold parseLine at hp
  simp only [h0, h1, h2, h3, beq_iff_eq, Bool.false_eq_true, if_false] at hp
  by_cases hc : strContains (pyStrip l) ("#") = true
  · rw [if_pos hc] at hp
    by_cases hcl : pyStrip (String.mk ((pyStrip l).data.takeWhile (fun c => c != '#'))) = ("")
    · rw [if_pos hcl] at hp
      exact Option.noConfusion hp
    · rw [if_neg hcl] at hp
      obtain rfl := Option.some.inj hp
      have hmem2 := mem_pyStrip_data hmem
      have := List.mem_takeWhile_imp hmem2
      simp at this
  · rw [if_neg hc] at hp
    rw [if_neg h0] at hp
    obtain rfl := Option.some.inj hp
    have : strContains (pyStrip l) ("#") = true := listContainsSub_single _ hmem
    exact hc this

theorem mem_addDependency {deps : List String} {dep x : String} :
    x ∈ addDependency deps dep ↔ x ∈ deps ∨ x = dep := by
  unfold addDependency
  split
  · rename_i hmem
    constructor
    · exact Or.inl
    · intro h
      rcases h with h | h
      · exact h
      · rw [h]
        exact hmem
  · simp [List.mem_append]

theorem foldl_requirementsStep_mem : ∀ (ls acc : List String) (x : String),
    x ∈ ls.foldl requirementsStep acc ↔
      x ∈ acc ∨ ∃ l, l ∈ ls ∧ parseLine l = some x := by
  intro ls
  induction ls with
  | nil => intro acc x; simp
  | cons a t ih =>
    intro acc x
    rw [List.foldl_cons, ih]
    constructor
    · intro h
      rcases h with hx | ⟨l, hl, hpl⟩
      · unfold requirementsStep at hx
        cases hp : parseLine a with
        | none => rw [hp] at hx; exact Or.inl hx
        | some dep =>
          rw [hp] at hx
          rcases mem_addDependency.mp hx with hx2 | hx2
          · exact Or.inl hx2
          · exact Or.inr ⟨a, List.mem_cons_self a t, by rw [hp, hx2]⟩
      · exact Or.inr ⟨l, List.mem_cons_of_mem a hl, hpl⟩
    · intro h
      rcases h with hx | ⟨l, hl, hpl⟩
      · left
        unfold requirementsStep
        cases hp : parseLine a with
        | none => exact hx
        | some dep => exact mem_addDependency.mpr (Or.inl hx)
      · rcases List.mem_cons.mp hl with rfl | hl2
        · left
          unfold requirementsStep
          rw [hpl]
          exact mem_addDependency.mpr (Or.inr rfl)
        · exact Or.inr ⟨l, hl2, hpl⟩

theorem foldl_requirementsStep_append : ∀ (ls acc : List String),
    ∃ extra, ls.foldl requirementsStep acc = acc ++ extra := by
  intro ls
  induction ls with
  | nil => intro acc; exact ⟨[], by simp⟩
  | cons a t ih =>
    intro acc
    rw [List.foldl_cons]
    have h0 : ∃ e0, requirementsStep acc a = acc ++ e0 := by
      unfold requirementsStep
      cases parseLine a with
      | none => exact ⟨[], by simp⟩
      | some dep =>
        by_cases hd : dep ∈ acc
        · exact ⟨[], by simp [addDependency, hd]⟩
        · exact ⟨[dep], by simp [addDependency, hd]⟩
    obtain ⟨e0, he0⟩ := h0
    obtain ⟨e1, he1⟩ := ih (acc ++ e0)
    exact ⟨e0 ++ e1, by rw [he0, he1, List.append_assoc]⟩

theorem foldl_requirementsStep_id : ∀ (ls acc : List String),
    (∀ l, l ∈ ls → ∀ d, parseLine l = some d → d ∈ acc) →
    ls.foldl requirementsStep acc = acc := by
  intro ls
  induction ls with
  | nil => intro acc _; rfl
  | cons a t ih =>
    intro acc h
    rw [List.foldl_cons]
    have hstep : requirementsStep acc a = acc := by
      unfold requirementsStep
      cases hp : parseLine a with
      | none => rfl
      | some dep =>
        have hd : dep ∈ acc := h a (List.mem_cons_self a t) dep hp
        unfold addDependency
        simp [hd]
    rw [hstep]
    exact ih acc (fun l hl d hd => h l (List.mem_cons_of_mem a hl) d hd)

theorem foldl_requirementsStep_length : ∀ (ls acc : List String),
    (ls.foldl requirementsStep acc).length ≤ acc.length ↔
      (∀ l, l ∈ ls → ∀ d, parseLine l = some d → d ∈ acc) := by
  intro ls acc
  constructor
  · intro hlen l hl d hd
    obtain ⟨extra, hex⟩ := foldl_requirementsStep_append ls acc
    have hext : extra = [] := by
      rw [hex, List.length_append] at hlen
      have : extra.length = 0 := by omega
      exact List.length_eq_zero.mp this
    have hdmem : d ∈ ls.foldl requirementsStep acc :=
      (foldl_requirementsStep_mem ls acc d).mpr (Or.inr ⟨l, hl, hd⟩)
    rw [hex, hext, List.append_nil] at hdmem
    exact hdmem
  · intro h
    rw [foldl_requirementsStep_id ls acc h]

/-- C6 counterexample: a `requirements.txt` whose only entry is the baseline
package itself parses to a non-empty dependency line, and the resulting set
is certainly non-empty after the baseline is added, yet `load_requirements`
fails (`len(dependencies) <= 1` holds because the set deduplicates), so
"fails exactly when the resulting set is empty" is false; likewise for the
AG-UI baseline pair. -/
theorem load_requirements_baseline_only_counterexample :
    parseLine ("GitPython") = some ("GitPython") ∧
    load_requirements [("GitPython")] =
      Except.error ("No valid dependencies found in requirements.txt") ∧
    agui_load_requirements [("GitPython"), ("ag-ui-protocol")] =
      Except.error ("No valid dependencies found in requirements.txt") := by
  decide

/-- C6 (amended): `load_requirements` ignores blank and `#`-comment lines,
skips `-e ` and `-r ` lines, strips inline comments after a `#` (a parsed
dependency never contains `#`), always includes the baseline package(s)
(`GitPython`, plus `ag-ui-protocol` in the AG-UI variant) in a successful
result, fails exactly when every parsed requirement line is already a
baseline package name (in particular when nothing parses), and otherwise
returns the set of parsed requirement lines plus the baseline. -/
theorem load_requirements_parsing_and_failure :
    (∀ rawLine ls, parseLine rawLine = none →
      load_requirements (rawLine :: ls) = load_requirements ls) ∧
    (∀ rawLine ls, parseLine rawLine = none →
      agui_load_requirements (rawLine :: ls) = agui_load_requirements ls) ∧
    (∀ l, pyStrip l = ("") → parseLine l = none) ∧
    (∀ l, strStartsWith (pyStrip l) ("#") = true → parseLine l = none) ∧
    (∀ l, strStartsWith (pyStrip l) ("-e ") = true → parseLine l = none) ∧
    (∀ l, strStartsWith (pyStrip l) ("-r ") = true → parseLine l = none) ∧
    (∀ l d, parseLine l = some d → ¬ ('#') ∈ d.data) ∧
    (∀ ls deps, load_requirements ls = Except.ok deps → ("GitPython") ∈ deps) ∧
    (∀ ls deps, agui_load_requirements ls = Except.ok deps →
      ("GitPython") ∈ deps ∧ ("ag-ui-protocol") ∈ deps) ∧
    (∀ ls, (∃ e, load_requirements ls = Except.error e) ↔
      (∀ l, l ∈ ls → ∀ d, parseLine l = some d → d = ("GitPython"))) ∧
    (∀ ls, (∃ e, agui_load_requirements ls = Except.error e) ↔
      (∀ l, l ∈ ls → ∀ d, parseLine l = some d →
        d ∈ [("GitPython"), ("ag-ui-protocol")])) ∧
    (∀ ls deps, load_requirements ls = Except.ok deps →
      ∀ d, d ∈ deps ↔ (d = ("GitPython") ∨ ∃ l, l ∈ ls ∧ parseLine l = some d)) ∧
    (∀ ls deps, agui_load_requirements ls = Except.ok deps →
      ∀ d, d ∈ deps ↔ (d ∈ [("GitPython"), ("ag-ui-protocol")] ∨
        ∃ l, l ∈ ls ∧ parseLine l = some d)) := by
  refine ⟨?_, ?_, parseLine_none_of_empty, parseLine_none_of_comment,
    parseLine_none_of_editable, parseLine_none_of_recursive,
    fun l d hp => parseLine_no_hash hp, ?_, ?_, ?_, ?_, ?_, ?_⟩
  · intro rawLine ls h
    unfold load_requirements
    rw [List.foldl_cons,
      show requirementsStep [("GitPython")] rawLine = [("GitPython")] from by
        unfold requirementsStep; rw [h]]
  · intro rawLine ls h
    unfold agui_load_requirements
    rw [List.foldl_cons,
      show requirementsStep [("GitPython"), ("ag-ui-protocol")] rawLine =
          [("GitPython"), ("ag-ui-protocol")] from by
        unfold requirementsStep; rw [h]]
  · intro ls deps h
    simp only [load_requirements] at h
    split at h
    · exact Except.noConfusion h
    · injection h with h2
      rw [← h2]
      exact (foldl_requirementsStep_mem ls _ _).mpr (Or.inl (by simp))
  · intro ls deps h
    simp only [agui_load_requirements] at h
    split at h
    · exact Except.noConfusion h
    · injection h with h2
      rw [← h2]
      exact ⟨(foldl_requirementsStep_mem ls _ _).mpr (Or.inl (by simp)),
        (foldl_requirementsStep_mem ls _ _).mpr (Or.inl (by simp))⟩
  · intro ls
    constructor
    · rintro ⟨e, he⟩
      simp only [load_requirements] at he
      split at he
      · rename_i hlen
        intro l hl d hd
        have hall := (foldl_requirementsStep_length ls [("GitPython")]).mp hlen
        simpa using hall l hl d hd
      · exact Except.noConfusion he
    · intro h
      have hlen : (ls.foldl requirementsStep [("GitPython")]).length ≤ 1 := by
        apply (foldl_requirementsStep_length ls [("GitPython")]).mpr
        intro l hl d hd
        rw [h l hl d hd]
        simp
      refine ⟨("No valid dependencies found in requirements.txt"), ?_⟩
      simp only [load_requirements]
      rw [if_pos hlen]
  · intro ls
    constructor
    · rintro ⟨e, he⟩
      simp only [agui_load_requirements] at he
      split at he
      · rename_i hlen
        intro l hl d hd
        exact (foldl_requirementsStep_length ls
          [("GitPython"), ("ag-ui-protocol")]).mp hlen l hl d hd
      · exact Except.noConfusion he
    · intro h
      have hlen : (ls.foldl requirementsStep
          [("GitPython"), ("ag-ui-protocol")]).length ≤ 2 := by
        apply (foldl_requirementsStep_length ls [("GitPython"), ("ag-ui-protocol")]).mpr
        exact h
      refine ⟨("No valid dependencies found in requirements.txt"), ?_⟩
      simp only [agui_load_requirements]
      rw [if_pos hlen]
  · intro ls deps h d
    simp only [load_requirements] at h
    split at h
    · exact Except.noConfusion h
    · injection h with h2
      rw [← h2, foldl_requirementsStep_mem, List.mem_singleton]
  · intro ls deps h d
    simp only [agui_load_requirements] at h
    split at h
    · exact Except.noConfusion h
    · injection h with h2
      rw [← h2, foldl_requirementsStep_mem]

/-- C6 witness: a whitespace-only line is ignored, a successful load contains
the baseline, and an inline comment is stripped from a parsed line. -/
theorem load_requirements_parsing_and_failure_witness :
    load_requirements [("   "), ("agno")] = load_requirements [("agno")] ∧
    ("GitPython") ∈ [("GitPython"), ("agno")] ∧
    ¬ ('#') ∈ (("agno") : String).data :=
  ⟨load_requirements_parsing_and_failure.1 ("   ") [("agno")] (by decide),
   load_requirements_parsing_and_failure.2.2.2.2.2.2.2.1 [("agno")]
     [("GitPython"), ("agno")] (by decide),
   load_requirements_parsing_and_failure.2.2.2.2.2.2.1 ("agno  # agent framework")
     ("agno") (by decide)⟩

/-- A value passing the `Bearer ` prefix test is in particular non-empty. -/
theorem startsWith_bearer_ne_empty {s : String}
    (h : strStartsWith s ("Bearer ") = true) : (s == ("")) = false := by
  by_cases he : s = ("")
  · subst he
    exact absurd h (by decide)
  · simpa using he

/-- C7 counterexample: an Authorization header that is present with an empty
value does not start with `Bearer `, yet the middleware rejects it with
`Missing Authorization header` (the truthiness of `if not auth_header:`), not
with the malformed-format message the claim requires for every value not
starting with `Bearer `. -/
theorem token_auth_empty_header_counterexample :
    headerLookup [(("authorization"), (""))] ("authorization") = some ("") ∧
    strStartsWith ("") ("Bearer ") = false ∧
    ¬ ("/v1/runs") ∈ publicEndpoints true ∧
    tokenAuthMiddlewareCall ("secret-token") true ("http") ("/v1/runs")
        [(("authorization"), (""))] =
      AsgiOutcome.rejected 401 (authErrorBody ("Missing Authorization header")) ∧
    authErrorBody ("Missing Authorization header") ≠
      authErrorBody ("Invalid Authorization header format. Expected: Bearer <token>") := by
  decide

/-- C7 (amended): For every HTTP request to a path outside the public
allowlist (`/health` and `/openapi.json`, plus `/docs` and `/redoc` when docs
protection is off): a missing `authorization` header - or one present with an
empty value, which Python's `if not auth_header:` treats the same way - is
rejected 401 with message `Missing Authorization header`; a non-empty header
value not starting with `Bearer ` is rejected 401 with the malformed-format
message; a Bearer token differing from the configured secret is rejected 401
with `Invalid authentication token`; every rejection is a 401 whose JSON body
has exactly the keys `error`, `message`, `hint`; a matching token, or a
public path, is forwarded to the wrapped application. -/
theorem token_auth_http_request_handling :
    (∀ (token : String) (protectDocs : Bool) (path : String)
       (headers : List (String × String)),
      ¬ path ∈ publicEndpoints protectDocs →
      headerLookup headers ("authorization") = none →
      tokenAuthMiddlewareCall token protectDocs ("http") path headers =
        AsgiOutcome.rejected 401 (authErrorBody ("Missing Authorization header"))) ∧
    (∀ (token : String) (protectDocs : Bool) (path : String)
       (headers : List (String × String)),
      ¬ path ∈ publicEndpoints protectDocs →
      headerLookup headers ("authorization") = some ("") →
      tokenAuthMiddlewareCall token protectDocs ("http") path headers =
        AsgiOutcome.rejected 401 (authErrorBody ("Missing Authorization header"))) ∧
    (∀ (token : String) (protectDocs : Bool) (path : String)
       (headers : List (String × String)) (authStr : String),
      ¬ path ∈ publicEndpoints protectDocs →
      headerLookup headers ("authorization") = some authStr →
      authStr ≠ ("") →
      strStartsWith authStr ("Bearer ") = false →
      tokenAuthMiddlewareCall token protectDocs ("http") path headers =
        AsgiOutcome.rejected 401
          (authErrorBody ("Invalid Authorization header format. Expected: Bearer <token>"))) ∧
    (∀ (token : String) (protectDocs : Bool) (path : String)
       (headers : List (String × String)) (authStr : String),
      ¬ path ∈ publicEndpoints protectDocs →
      headerLookup headers ("authorization") = some authStr →
      strStartsWith authStr ("Bearer ") = true →
      strDropChars authStr 7 ≠ token →
      tokenAuthMiddlewareCall token protectDocs ("http") path headers =
        AsgiOutcome.rejected 401 (authErrorBody ("Invalid authentication token"))) ∧
    (∀ (token : String) (protectDocs : Bool) (scopeType path : String)
       (headers : List (String × String)) (status : Nat)
       (body : List (String × String)),
      tokenAuthMiddlewareCall token protectDocs scopeType path headers =
        AsgiOutcome.rejected status body →
      status = 401 ∧ ∃ msg, body = authErrorBody msg ∧
        body.map Prod.fst = [("error"), ("message"), ("hint")]) ∧
    (∀ (token : String) (protectDocs : Bool) (path : String)
       (headers : List (String × String)) (authStr : String),
      ¬ path ∈ publicEndpoints protectDocs →
      headerLookup headers ("authorization") = some authStr →
      strStartsWith authStr ("Bearer ") = true →
      strDropChars authStr 7 = token →
      tokenAuthMiddlewareCall token protectDocs ("http") path headers =
        AsgiOutcome.forwarded) ∧
    (∀ (token : String) (protectDocs : Bool) (path : String)
       (headers : List (String × String)),
      path ∈ publicEndpoints protectDocs →
      tokenAuthMiddlewareCall token protectDocs ("http") path headers =
        AsgiOutcome.forwarded) := by
  refine ⟨?_, ?_, ?_, ?_, ?_, ?_, ?_⟩
  · intro token pd path headers hpub hnone
    unfold tokenAuthMiddlewareCall
    rw [if_neg (by decide), if_neg hpub, hnone]
  · intro token pd path headers hpub hsome
    unfold tokenAuthMiddlewareCall
    rw [if_neg (by decide), if_neg hpub, hsome]
    rfl
  · intro token pd path headers authStr hpub hsome hne hmal
    unfold tokenAuthMiddlewareCall
    rw [if_neg (by decide), if_neg hpub, hsome]
    simp [hne, hmal]
  · intro token pd path headers authStr hpub hsome hbearer hneq
    unfold tokenAuthMiddlewareCall
    rw [if_neg (by decide), if_neg hpub, hsome]
    simp [startsWith_bearer_ne_empty hbearer, hbearer, hneq]
  · intro token pd st path headers status body h
    unfold tokenAuthMiddlewareCall at h
    split at h
    · exact AsgiOutcome.noConfusion h
    · split at h
      · exact AsgiOutcome.noConfusion h
      · cases hh : headerLookup headers ("authorization") with
        | none =>
          rw [hh] at h
          have h2 : AsgiOutcome.rejected 401
              (authErrorBody ("Missing Authorization header")) =
              AsgiOutcome.rejected status body := h
          injection h2 with hs hb
          subst hs
          subst hb
          exact ⟨rfl, _, rfl, rfl⟩
        | some a =>
          rw [hh] at h
          have h3 : (if (a == ("")) = true then
                AsgiOutcome.rejected 401 (authErrorBody ("Missing Authorization header"))
              else if (!strStartsWith a ("Bearer ")) = true then
                AsgiOutcome.rejected 401 (authErrorBody
                  ("Invalid Authorization header format. Expected: Bearer <token>"))
              else if (strDropChars a 7 != token) = true then
                AsgiOutcome.rejected 401 (authErrorBody ("Invalid authentication token"))
              else AsgiOutcome.forwarded) = AsgiOutcome.rejected status body := h
          by_cases hc0 : (a == ("")) = true
          · rw [if_pos hc0] at h3
            injection h3 with hs hb
            subst hs
            subst hb
            exact ⟨rfl, _, rfl, rfl⟩
          rw [if_neg hc0] at h3
          by_cases hc1 : (!strStartsWith a ("Bearer ")) = true
          · rw [if_pos hc1] at h3
            injection h3 with hs hb
            subst hs
            subst hb
            exact ⟨rfl, _, rfl, rfl⟩
          · rw [if_neg hc1] at h3
            by_cases hc2 : (strDropChars a 7 != token) = true
            · rw [if_pos hc2] at h3
              injection h3 with hs hb
              subst hs
              subst hb
              exact ⟨rfl, _, rfl, rfl⟩
            · rw [if_neg hc2] at h3
              exact AsgiOutcome.noConfusion h3
  · intro token pd path headers authStr hpub hsome hbearer heq
    unfold tokenAuthMiddlewareCall
    rw [if_neg (by decide), if_neg hpub, hsome]
    simp [startsWith_bearer_ne_empty hbearer, hbearer, heq]
  · intro token pd path headers hpub
    unfold tokenAuthMiddlewareCall
    rw [if_neg (by decide), if_pos hpub]

/-- C7 witness: the missing-header, empty-value, malformed and wrong-token
rejections, a correct token, and a public path, on concrete requests. -/
theorem token_auth_http_request_handling_witness :
    tokenAuthMiddlewareCall ("secret-token") true ("http") ("/v1/runs") [] =
      AsgiOutcome.rejected 401 (authErrorBody ("Missing Authorization header")) ∧
    tokenAuthMiddlewareCall ("secret-token") true ("http") ("/v1/runs")
        [(("authorization"), (""))] =
      AsgiOutcome.rejected 401 (authErrorBody ("Missing Authorization header")) ∧
    tokenAuthMiddlewareCall ("secret-token") true ("http") ("/v1/runs")
        [(("authorization"), ("Token abc"))] =
      AsgiOutcome.rejected 401
        (authErrorBody ("Invalid Authorization header format. Expected: Bearer <token>")) ∧
    tokenAuthMiddlewareCall ("secret-token") true ("http") ("/v1/runs")
        [(("authorization"), ("Bearer wrongtoken"))] =
      AsgiOutcome.rejected 401 (authErrorBody ("Invalid authentication token")) ∧
    tokenAuthMiddlewareCall ("secret-token") true ("http") ("/v1/runs")
        [(("authorization"), ("Bearer secret-token"))] = AsgiOutcome.forwarded ∧
    tokenAuthMiddlewareCall ("secret-token") false ("http") ("/docs") [] =
      AsgiOutcome.forwarded :=
  ⟨token_auth_http_request_handling.1 ("secret-token") true ("/v1/runs") []
      (by decide) (by decide),
   token_auth_http_request_handling.2.1 ("secret-token") true ("/v1/runs")
      [(("authorization"), (""))] (by decide) (by decide),
   token_auth_http_request_handling.2.2.1 ("secret-token") true ("/v1/runs")
      [(("authorization"), ("Token abc"))] ("Token abc")
      (by decide) (by decide) (by decide) (by decide),
   token_auth_http_request_handling.2.2.2.1 ("secret-token") true ("/v1/runs")
      [(("authorization"), ("Bearer wrongtoken"))] ("Bearer wrongtoken")
      (by decide) (by decide) (by decide) (by decide),
   token_auth_http_request_handling.2.2.2.2.2.1 ("secret-token") true ("/v1/runs")
      [(("authorization"), ("Bearer secret-token"))] ("Bearer secret-token")
      (by decide) (by decide) (by decide) (by decide),
   token_auth_http_request_handling.2.2.2.2.2.2 ("secret-token") false ("/docs") []
      (by decide)⟩

/-- C8: When resolution selected a Function-category candidate, the
deployment adapter fails with a `TypeError` if and only if the value returned
by the zero-argument invocation is not an instance of the type the category
promises (`FastAPIApp`/`AGUIApp` for App functions, `Agent` for Agent
functions, `Team` for Team functions); a value of the promised type is
passed through unchanged. -/
theorem function_pattern_return_type_check :
    (∀ (patternName : String) (returned : PyValue),
      ((∃ e, fastapi_app_returnCheck ("fastapi_function") patternName returned =
          Except.error e) ↔ isFastAPIAppInstance returned = false) ∧
      (isFastAPIAppInstance returned = true →
        fastapi_app_returnCheck ("fastapi_function") patternName returned =
          Except.ok returned)) ∧
    (∀ (patternName : String) (returned : PyValue),
      ((∃ e, fastapi_app_returnCheck ("agent_function") patternName returned =
          Except.error e) ↔ isAgentInstance returned = false) ∧
      (isAgentInstance returned = true →
        fastapi_app_returnCheck ("agent_function") patternName returned =
          Except.ok returned)) ∧
    (∀ (patternName : String) (returned : PyValue),
      ((∃ e, agui_app_returnCheck ("agui_function") patternName returned =
          Except.error e) ↔ isAGUIAppInstance returned = false) ∧
      (isAGUIAppInstance returned = true →
        agui_app_returnCheck ("agui_function") patternName returned =
          Except.ok returned)) ∧
    (∀ (patternName : String) (returned : PyValue),
      ((∃ e, agui_app_returnCheck ("agent_function") patternName returned =
          Except.error e) ↔ isAgentInstance returned = false) ∧
      (isAgentInstance returned = true →
        agui_app_returnCheck ("agent_function") patternName returned =
          Except.ok returned)) ∧
    (∀ (patternName : String) (returned : PyValue),
      ((∃ e, agui_app_returnCheck ("team_function") patternName returned =
          Except.error e) ↔ isTeamInstance returned = false) ∧
      (isTeamInstance returned = true →
        agui_app_returnCheck ("team_function") patternName returned =
          Except.ok returned)) := by
  refine ⟨?_, ?_, ?_, ?_, ?_⟩ <;> intro pn v <;>
    refine ⟨⟨fun he => ?_, fun hv => ?_⟩, fun hv => ?_⟩
  · obtain ⟨e, he⟩ := he
    cases hv : isFastAPIAppInstance v
    · rfl
    · rw [show fastapi_app_returnCheck ("fastapi_function") pn v = Except.ok v from by
        simp [fastapi_app_returnCheck, hv]] at he
      exact Except.noConfusion he
  · exact ⟨pn ++ ("() must return a FastAPIApp instance"), by
      simp [fastapi_app_returnCheck, hv]⟩
  · simp [fastapi_app_returnCheck, hv]
  · obtain ⟨e, he⟩ := he
    cases hv : isAgentInstance v
    · rfl
    · rw [show fastapi_app_returnCheck ("agent_function") pn v = Except.ok v from by
        simp [fastapi_app_returnCheck, hv]] at he
      exact Except.noConfusion he
  · exact ⟨pn ++ ("() must return an Agent instance"), by
      simp [fastapi_app_returnCheck, hv]⟩
  · simp [fastapi_app_returnCheck, hv]
  · obtain ⟨e, he⟩ := he
    cases hv : isAGUIAppInstance v
    · rfl
    · rw [show agui_app_returnCheck ("agui_function") pn v = Except.ok v from by
        simp [agui_app_returnCheck, hv]] at he
      exact Except.noConfusion he
  · exact ⟨pn ++ ("() must return an AGUIApp instance"), by
      simp [agui_app_returnCheck, hv]⟩
  · simp [agui_app_returnCheck, hv]
  · obtain ⟨e, he⟩ := he
    cases hv : isAgentInstance v
    · rfl
    · rw [show agui_app_returnCheck ("agent_function") pn v = Except.ok v from by
        simp [agui_app_returnCheck, hv]] at he
      exact Except.noConfusion he
  · exact ⟨pn ++ ("() must return an Agent instance"), by
      simp [agui_app_returnCheck, hv]⟩
  · simp [agui_app_returnCheck, hv]
  · obtain ⟨e, he⟩ := he
    cases hv : isTeamInstance v
    · rfl
    · rw [show agui_app_returnCheck ("team_function") pn v = Except.ok v from by
        simp [agui_app_returnCheck, hv]] at he
      exact Except.noConfusion he
  · exact ⟨pn ++ ("() must return a Team instance"), by
      simp [agui_app_returnCheck, hv]⟩
  · simp [agui_app_returnCheck, hv]

/-- C8 witness: a proper instance passes through, and a wrong-typed return
value produces the type error. -/
theorem function_pattern_return_type_check_witness :
    fastapi_app_returnCheck ("fastapi_function") ("create_fastapi_app")
      (PyValue.instFastAPIApp none) = Except.ok (PyValue.instFastAPIApp none) ∧
    (∃ e, fastapi_app_returnCheck ("agent_function") ("create_agent")
      (PyValue.instFastAPIApp none) = Except.error e) ∧
    agui_app_returnCheck ("team_function") ("create_team") (PyValue.instTeam none) =
      Except.ok (PyValue.instTeam none) :=
  ⟨(function_pattern_return_type_check.1 ("create_fastapi_app")
      (PyValue.instFastAPIApp none)).2 rfl,
   (function_pattern_return_type_check.2.1 ("create_agent")
      (PyValue.instFastAPIApp none)).1.mpr rfl,
   (function_pattern_return_type_check.2.2.2.2 ("create_team")
      (PyValue.instTeam none)).2 rfl⟩

/-- C10: ASGI events whose scope type is not `http` (websocket, lifespan,
...) are forwarded to the wrapped application without any token check,
whatever the path and headers. -/
theorem non_http_scope_bypasses_auth :
    ∀ (token : String) (protectDocs : Bool) (scopeType path : String)
      (headers : List (String × String)),
      scopeType ≠ ("http") →
      tokenAuthMiddlewareCall token protectDocs scopeType path headers =
        AsgiOutcome.forwarded := by
  intro token pd st path headers h
  unfold tokenAuthMiddlewareCall
  rw [if_pos (by simpa [bne_iff_ne] using h)]

/-- C10 witness: a websocket event with a wrong token is forwarded. -/
theorem non_http_scope_bypasses_auth_witness :
    tokenAuthMiddlewareCall ("secret-token") true ("websocket") ("/v1/runs")
      [(("authorization"), ("Bearer wrongtoken"))] = AsgiOutcome.forwarded :=
  non_http_scope_bypasses_auth ("secret-token") true ("websocket") ("/v1/runs")
    [(("authorization"), ("Bearer wrongtoken"))] (by decide)

end AgnoDeploy
